import Mathlib

/-!
Verification of the google-drive-clone backend (src/index.ts) against its
natural-language specification.

The Express route handlers are shallowly embedded as pure Lean functions
over an explicit `DriveState` holding the `files_folders` rows, the
`permissions` rows, the set of object-store keys, and the in-process
listing/search cache.  External stores are modelled by their documented
contracts: the row store's insert/update/select are total operations on
the row lists; the object store's `upload` and `move` fail when the
destination key already exists (and `move` when the source is missing),
and `createSignedUrl` fails when the key is absent.
-/

/-- A row of the `files_folders` table (spec `Node`). -/
structure Node where
  id : Nat
  user_id : String
  name : String
  path : String
  type : String
  parent_path : Option String
  is_deleted : Bool
deriving Repr, DecidableEq

/-- A row of the `permissions` table (spec `PermissionGrant`). -/
structure Grant where
  file_id : Nat
  user_id : String
  role : String
deriving Repr, DecidableEq

/-- Whole-system state: the two row-store tables, the object-store keys
(`supabase.storage.from('files')`), and the `NodeCache` instance. -/
structure DriveState where
  files_folders : List Node
  permissions : List Grant
  storage : List String
  cache : List (String × List Node)
deriving Repr, DecidableEq

/-- Outcome of a route handler: a 200 payload or an HTTP error status. -/
inductive HResult (α : Type) where
  | ok (val : α)
  | err (status : Nat)
deriving Repr, DecidableEq

/-- The HTTP status of a handler outcome (200 on success). -/
def HResult.status : HResult α → Nat
  | .ok _ => 200
  | .err s => s

/-- JS truthiness for an optional string field: `undefined` and `""` are
falsy (`!x` in the handlers). -/
def truthy : Option String → Option String
  | none => none
  | some s => if s = "" then none else some s

/-- `cache.get(key)` of NodeCache: the stored value, or a miss. -/
def cacheGet (c : List (String × List Node)) (k : String) : Option (List Node) :=
  (c.find? (fun e => e.1 == k)).map (fun e => e.2)

/-- `cache.set(key, value)` of NodeCache: overwrite any entry at `key`. -/
def cacheSet (c : List (String × List Node)) (k : String) (v : List Node) :
    List (String × List Node) :=
  (k, v) :: c.filter (fun e => e.1 != k)

/-- `supabase.storage.from('files').createSignedUrl(key, ttl)`: a URL when
the object exists, an error otherwise. -/
def createSignedUrl (storage : List String) (key : String) : Option String :=
  if key ∈ storage then some ("signed:" ++ key) else none

/-- `supabase.storage.from('files').move(oldKey, newKey)`: succeeds iff the
source object exists and the destination key is free. -/
def moveObject (storage : List String) (oldKey newKey : String) :
    Option (List String) :=
  if storage.contains oldKey && !(storage.contains newKey)
  then some (newKey :: storage.erase oldKey) else none

/-- The live (non-deleted) nodes of one principal, as selected by
`GET /files`: `eq('user_id', u).eq('is_deleted', false)`. -/
def liveNodes (userId : String) (db : List Node) : List Node :=
  db.filter (fun n => n.user_id == userId && n.is_deleted == false)

/-- The cache key used by `GET /files`. -/
def listKey (userId : String) : String := "files_" ++ userId

/-- `GET /files`: on a cache hit return the cached items unchanged; on a
miss select the principal's live nodes, cache them, and return them. -/
def listFiles (userId : String) (st : DriveState) :
    HResult (List Node) × DriveState :=
  match cacheGet st.cache (listKey userId) with
  | some v => (.ok v, st)
  | none =>
    let items := liveNodes userId st.files_folders
    (.ok items, { st with cache := cacheSet st.cache (listKey userId) items })

/-- The uploaded multipart file (`req.file`). -/
structure UploadFile where
  originalname : String
  mimetype : String
deriving Repr, DecidableEq

/-- The store-assigned id for a freshly inserted `files_folders` row. -/
def freshId (db : List Node) : Nat :=
  db.foldr (fun n m => max n.id m) 0 + 1

/-- The resulting path of an upload:
`parentFolderPath ? parent + "/" + fileName : userId + "/" + fileName`
with `fileName = Date.now() + "_" + originalname`. -/
def uploadPath (userId : String) (f : UploadFile)
    (parentFolderPath : Option String) (now : Nat) : String :=
  let fileName := toString now ++ "_" ++ f.originalname
  match truthy parentFolderPath with
  | some p => p ++ "/" ++ fileName
  | none => userId ++ "/" ++ fileName

/-- The metadata row inserted by a successful upload. -/
def uploadNode (userId : String) (f : UploadFile)
    (parentFolderPath : Option String) (now : Nat) (db : List Node) : Node :=
  { id := freshId db, user_id := userId, name := f.originalname,
    path := uploadPath userId f parentFolderPath now, type := "file",
    parent_path := truthy parentFolderPath, is_deleted := false }

/-- `POST /upload`: 400 without a file; stores the object at the resulting
path (500 if the key is taken), then inserts the metadata row.  No
metadata path-uniqueness check and no cache invalidation. -/
def uploadHandler (userId : String) (file : Option UploadFile)
    (parentFolderPath : Option String) (now : Nat) (st : DriveState) :
    HResult Node × DriveState :=
  match file with
  | none => (.err 400, st)
  | some f =>
    let filePath := uploadPath userId f parentFolderPath now
    if filePath ∈ st.storage then (.err 500, st)
    else
      let node := uploadNode userId f parentFolderPath now st.files_folders
      (.ok node,
        { st with storage := filePath :: st.storage,
                  files_folders := st.files_folders ++ [node] })

/-- `GET /download/:fileName`: signs `userId + "/" + fileName` directly
against the object store; the metadata table is never consulted. -/
def downloadHandler (userId fileName : String) (st : DriveState) :
    HResult String :=
  match createSignedUrl st.storage (userId ++ "/" ++ fileName) with
  | some url => .ok url
  | none => .err 500

/-- `DELETE /delete/:fileId`:
`update({is_deleted:true}).eq('id',fileId).eq('user_id',u).select()`;
404 when no row matched.  Note there is no `is_deleted=false` filter. -/
def deleteHandler (userId : String) (fileId : Nat) (st : DriveState) :
    HResult Node × DriveState :=
  let matched := st.files_folders.filter
    (fun n => n.id == fileId && n.user_id == userId)
  let updated := st.files_folders.map (fun n =>
    if n.id == fileId && n.user_id == userId
    then { n with is_deleted := true } else n)
  match matched with
  | [] => (.err 404, { st with files_folders := updated })
  | n :: _ =>
    (.ok { n with is_deleted := true }, { st with files_folders := updated })

/-- `POST /restore/:fileId`: same shape as delete with
`update({is_deleted:false})`; again no filter on the prior
`is_deleted` state. -/
def restoreHandler (userId : String) (fileId : Nat) (st : DriveState) :
    HResult Node × DriveState :=
  let matched := st.files_folders.filter
    (fun n => n.id == fileId && n.user_id == userId)
  let updated := st.files_folders.map (fun n =>
    if n.id == fileId && n.user_id == userId
    then { n with is_deleted := false } else n)
  match matched with
  | [] => (.err 404, { st with files_folders := updated })
  | n :: _ =>
    (.ok { n with is_deleted := false }, { st with files_folders := updated })

/-- `POST /share/:fileId`: selects the node with
`eq('id',fileId).eq('user_id',u).single()` — only rows owned by the
requester are visible — then signs `path` (or `path + "/.keep"` for a
folder). -/
def shareHandler (userId : String) (fileId : Nat) (st : DriveState) :
    HResult String :=
  match st.files_folders.find?
      (fun n => n.id == fileId && n.user_id == userId) with
  | none => .err 404
  | some fd =>
    let p := if fd.type == "folder" then fd.path ++ "/.keep" else fd.path
    match createSignedUrl st.storage p with
    | some url => .ok url
    | none => .err 500

/-- `PUT /rename/:fileName`: 400 when `newFileName` is missing or empty;
otherwise moves the storage object from `userId/fileName` to
`userId/newFileName`.  The metadata table and the cache are untouched. -/
def renameHandler (userId oldFileName : String) (newFileName : Option String)
    (st : DriveState) : HResult Unit × DriveState :=
  match truthy newFileName with
  | none => (.err 400, st)
  | some newName =>
    let oldKey := userId ++ "/" ++ oldFileName
    let newKey := userId ++ "/" ++ newName
    match moveObject st.storage oldKey newKey with
    | none => (.err 500, st)
    | some storage' => (.ok (), { st with storage := storage' })

/-- The role whitelist of the permission routes:
`['owner','editor','viewer'].includes(role)`. -/
def validRole (role : String) : Bool :=
  role == "owner" || role == "editor" || role == "viewer"

/-- The shared input validation of `POST`/`PUT /permissions/:fileId`:
`!targetUserId || !role || !includes(role)` rejects with 400. -/
def permissionInputOk (targetUserId role : Option String) :
    Option (String × String) :=
  match truthy targetUserId, truthy role with
  | some t, some r => if validRole r then some (t, r) else none
  | _, _ => none

/-- `POST /permissions/:fileId`: after input validation, inserts the grant
unconditionally.  The acting principal (`user`) is decoded from the JWT
but never checked against the node. -/
def postPermission (actorId : String) (fileId : Nat)
    (targetUserId role : Option String) (st : DriveState) :
    HResult Grant × DriveState :=
  match permissionInputOk targetUserId role with
  | none => (.err 400, st)
  | some tr =>
    let g : Grant := { file_id := fileId, user_id := tr.1, role := tr.2 }
    (.ok g, { st with permissions := st.permissions ++ [g] })

/-- `PUT /permissions/:fileId`: after input validation, updates the grant
rows matching `(file_id, user_id)`; 404 when none matched.  Again no
check on the acting principal. -/
def putPermission (actorId : String) (fileId : Nat)
    (targetUserId role : Option String) (st : DriveState) :
    HResult Grant × DriveState :=
  match permissionInputOk targetUserId role with
  | none => (.err 400, st)
  | some tr =>
    let matched := st.permissions.filter
      (fun g => g.file_id == fileId && g.user_id == tr.1)
    let updated := st.permissions.map (fun g =>
      if g.file_id == fileId && g.user_id == tr.1
      then { g with role := tr.2 } else g)
    match matched with
    | [] => (.err 404, { st with permissions := updated })
    | g :: _ =>
      (.ok { g with role := tr.2 }, { st with permissions := updated })

/-- `GET /search` offset: `(Number(page) - 1) * Number(limit)`. -/
def searchOffset (page limit : Nat) : Nat := (page - 1) * limit

/-- `GET /search` page count: `Math.ceil(count / limit)` on Nat inputs. -/
def searchTotalPages (count limit : Nat) : Nat := (count + limit - 1) / limit

/-- The records delivered for one page:
`.range(offset, offset + limit - 1)` over the matching records. -/
def searchPage (records : List α) (page limit : Nat) : List α :=
  (records.drop (searchOffset page limit)).take limit

/-! Concrete fixtures used by the counterexamples and witnesses. -/

/-- A live file owned by `alice`. -/
def aliceFile : Node :=
  { id := 1, user_id := "alice", name := "a.txt", path := "alice/5_a.txt",
    type := "file", parent_path := none, is_deleted := false }

/-- A live file owned by `u`. -/
def liveNodeU : Node :=
  { id := 1, user_id := "u", name := "a.txt", path := "u/5_a.txt",
    type := "file", parent_path := none, is_deleted := false }

/-- A soft-deleted file owned by `u`. -/
def trashedNodeU : Node :=
  { id := 2, user_id := "u", name := "b.txt", path := "u/7_b.txt",
    type := "file", parent_path := none, is_deleted := true }

/-- A soft-deleted file owned by `u` whose path collides with a fresh
upload at `now = 5` of `a.txt`. -/
def trashedAtUploadPath : Node :=
  { id := 3, user_id := "u", name := "a.txt", path := "u/5_a.txt",
    type := "file", parent_path := none, is_deleted := true }

/-- A live file owned by `u` occupying the rename destination path. -/
def nodeAtDest : Node :=
  { id := 4, user_id := "u", name := "b.txt", path := "u/b.txt",
    type := "file", parent_path := none, is_deleted := false }

/-- Helper: a rename changes at most the object store. -/
theorem renameHandler_frame (userId oldFileName : String)
    (newFileName : Option String) (st : DriveState) :
    ((renameHandler userId oldFileName newFileName st).2).files_folders
      = st.files_folders ∧
    ((renameHandler userId oldFileName newFileName st).2).permissions
      = st.permissions ∧
    ((renameHandler userId oldFileName newFileName st).2).cache
      = st.cache := by
  unfold renameHandler
  cases truthy newFileName with
  | none => exact ⟨rfl, rfl, rfl⟩
  | some n =>
    dsimp only
    cases moveObject st.storage (userId ++ "/" ++ oldFileName)
        (userId ++ "/" ++ n) with
    | none => exact ⟨rfl, rfl, rfl⟩
    | some s => exact ⟨rfl, rfl, rfl⟩

/-- Helper: soft-delete changes at most the `files_folders` rows. -/
theorem deleteHandler_frame (userId : String) (fileId : Nat)
    (st : DriveState) :
    ((deleteHandler userId fileId st).2).storage = st.storage ∧
    ((deleteHandler userId fileId st).2).permissions = st.permissions ∧
    ((deleteHandler userId fileId st).2).cache = st.cache := by
  unfold deleteHandler
  cases hm : st.files_folders.filter
      (fun n => n.id == fileId && n.user_id == userId) with
  | nil => exact ⟨rfl, rfl, rfl⟩
  | cons n l => exact ⟨rfl, rfl, rfl⟩

/-- Helper: restore changes at most the `files_folders` rows. -/
theorem restoreHandler_frame (userId : String) (fileId : Nat)
    (st : DriveState) :
    ((restoreHandler userId fileId st).2).storage = st.storage ∧
    ((restoreHandler userId fileId st).2).permissions = st.permissions ∧
    ((restoreHandler userId fileId st).2).cache = st.cache := by
  unfold restoreHandler
  cases hm : st.files_folders.filter
      (fun n => n.id == fileId && n.user_id == userId) with
  | nil => exact ⟨rfl, rfl, rfl⟩
  | cons n l => exact ⟨rfl, rfl, rfl⟩

/-- Helper: an upload never touches the cache or the grants. -/
theorem uploadHandler_frame (userId : String) (file : Option UploadFile)
    (parentFolderPath : Option String) (now : Nat) (st : DriveState) :
    ((uploadHandler userId file parentFolderPath now st).2).cache = st.cache ∧
    ((uploadHandler userId file parentFolderPath now st).2).permissions
      = st.permissions := by
  unfold uploadHandler
  cases file with
  | none => exact ⟨rfl, rfl⟩
  | some f =>
    dsimp only
    by_cases hmem : uploadPath userId f parentFolderPath now ∈ st.storage
    · rw [if_pos hmem]; exact ⟨rfl, rfl⟩
    · rw [if_neg hmem]; exact ⟨rfl, rfl⟩

/-- `truthy` yields `some` only on the literal input. -/
theorem truthy_eq_some {o : Option String} {s : String}
    (h : truthy o = some s) : o = some s := by
  cases o with
  | none => simp [truthy] at h
  | some v =>
    simp only [truthy] at h
    split at h
    · exact absurd h (by simp)
    · exact congrArg some (Option.some.inj h)

/-- C7: for 1-indexed page `p` and page size `L > 0`, the query offset is
`(p-1)*L` and the reported `totalPages` is `ceil(total_count / L)`; with
25 matching records and page size 10, `totalPages = 3` and page 3 yields
records 21 through 25. -/
theorem search_pagination_correct (count page limit : Nat)
    (hL : 0 < limit) :
    searchOffset page limit = (page - 1) * limit ∧
    searchTotalPages count limit = ⌈(count : ℚ) / (limit : ℚ)⌉₊ ∧
    searchTotalPages 25 10 = 3 ∧
    searchPage (List.range' 1 25) 3 10 = [21, 22, 23, 24, 25] := by
  refine ⟨rfl, ?_, by decide, by decide⟩
  refine eq_of_forall_ge_iff (fun n => ?_)
  simp only [searchTotalPages]
  rw [← Nat.ceilDiv_eq_add_pred_div, ceilDiv_le_iff_le_mul hL, Nat.ceil_le,
    div_le_iff₀ (by exact_mod_cast hL)]
  norm_cast
  rw [Nat.mul_comm limit n]

/-- Witness for C7 at count 25, page 3, limit 10. -/
theorem search_pagination_correct_witness :
    0 < 10 ∧
    (searchOffset 3 10 = (3 - 1) * 10 ∧
     searchTotalPages 25 10 = ⌈(25 : ℚ) / (10 : ℚ)⌉₊ ∧
     searchTotalPages 25 10 = 3 ∧
     searchPage (List.range' 1 25) 3 10 = [21, 22, 23, 24, 25]) :=
  ⟨by decide, search_pagination_correct 25 3 10 (by decide)⟩

/-- C9: a rename touches only the object store — the `files_folders`
rows, the grants, and the cache are unchanged by every run of the rename
handler, successful runs included; the metadata store still records the
old path afterwards. -/
theorem rename_preserves_metadata (userId oldFileName : String)
    (newFileName : Option String) (st : DriveState) :
    ((renameHandler userId oldFileName newFileName st).2).files_folders
      = st.files_folders ∧
    ((renameHandler userId oldFileName newFileName st).2).permissions
      = st.permissions ∧
    ((renameHandler userId oldFileName newFileName st).2).cache
      = st.cache :=
  renameHandler_frame userId oldFileName newFileName st

/-- C10: the download handler derives the signed key from the owner id
and the file name alone, reading only the object store: any two states
with the same object store give the same response, and soft-deleting a
node (which touches only `files_folders`) never changes the outcome of a
subsequent download. -/
theorem download_ignores_metadata (userId fileName actorId : String)
    (fileId : Nat) (st st' : DriveState) (hs : st'.storage = st.storage) :
    downloadHandler userId fileName st' = downloadHandler userId fileName st ∧
    downloadHandler userId fileName ((deleteHandler actorId fileId st).2)
      = downloadHandler userId fileName st := by
  have key : ∀ t u : DriveState, t.storage = u.storage →
      downloadHandler userId fileName t = downloadHandler userId fileName u := by
    intro t u h
    unfold downloadHandler
    rw [h]
  exact ⟨key st' st hs, key _ st (deleteHandler_frame actorId fileId st).1⟩

/-- Witness for C10: a signed URL for `u/a.txt` is produced identically
before and after `u` soft-deletes the corresponding node. -/
theorem download_ignores_metadata_witness :
    (DriveState.storage ⟨[], [], ["u/a.txt"], []⟩
       = DriveState.storage ⟨[liveNodeU], [], ["u/a.txt"], []⟩) ∧
    (downloadHandler "u" "a.txt" ⟨[], [], ["u/a.txt"], []⟩
       = downloadHandler "u" "a.txt" ⟨[liveNodeU], [], ["u/a.txt"], []⟩ ∧
     downloadHandler "u" "a.txt"
        ((deleteHandler "u" 1 ⟨[liveNodeU], [], ["u/a.txt"], []⟩).2)
       = downloadHandler "u" "a.txt" ⟨[liveNodeU], [], ["u/a.txt"], []⟩) :=
  ⟨rfl, download_ignores_metadata "u" "a.txt" "u" 1
    ⟨[liveNodeU], [], ["u/a.txt"], []⟩ ⟨[], [], ["u/a.txt"], []⟩ rfl⟩

/-- C1 counterexample: `u` lists (caching the empty listing), uploads a
file, then lists again within the TTL — the second listing is answered
with the cached pre-mutation result `[]`, although `u` now owns a live
node; no mutation invalidated the cache entry. -/
theorem listing_after_upload_serves_stale_cache :
    (listFiles "u" ((uploadHandler "u" (some ⟨"a.txt", "text/plain"⟩) none 5
        ((listFiles "u" ⟨[], [], [], []⟩).2)).2)).1 = .ok [] ∧
    liveNodes "u" ((uploadHandler "u" (some ⟨"a.txt", "text/plain"⟩) none 5
        ((listFiles "u" ⟨[], [], [], []⟩).2)).2).files_folders ≠ [] := by
  decide

/-- C1 amended: no mutation invalidates the cache — upload, soft-delete,
restore, and rename all leave the cache component of the state exactly as
it was, so cached listings survive every mutation until TTL expiry and a
listing inside the TTL is answered with the pre-mutation payload. -/
theorem mutations_leave_cache_unchanged (userId oldFileName : String)
    (file : Option UploadFile) (parentFolderPath newFileName : Option String)
    (now fileId rid : Nat) (st : DriveState) :
    ((uploadHandler userId file parentFolderPath now st).2).cache = st.cache ∧
    ((deleteHandler userId fileId st).2).cache = st.cache ∧
    ((restoreHandler userId rid st).2).cache = st.cache ∧
    ((renameHandler userId oldFileName newFileName st).2).cache = st.cache :=
  ⟨(uploadHandler_frame userId file parentFolderPath now st).1,
   (deleteHandler_frame userId fileId st).2.2,
   (restoreHandler_frame userId rid st).2.2,
   (renameHandler_frame userId oldFileName newFileName st).2.2⟩

/-- C2 counterexample: `eve` is not the owner of node 1 (owned by
`alice`) and holds no grant on it, yet her request to grant herself the
`owner` role succeeds and the grant is written. -/
theorem grant_write_without_privilege_succeeds :
    aliceFile.user_id ≠ "eve" ∧
    (postPermission "eve" 1 (some "eve") (some "owner")
        ⟨[aliceFile], [], [], []⟩).1 = .ok ⟨1, "eve", "owner"⟩ ∧
    (⟨1, "eve", "owner"⟩ : Grant) ∈ (postPermission "eve" 1 (some "eve")
        (some "owner") ⟨[aliceFile], [], [], []⟩).2.permissions := by
  decide

/-- C2 amended: the permission routes perform no privilege check on the
acting principal — with a valid target and role, grant creation succeeds
and writes the grant for every actor, and the update route's outcome is
independent of who the actor is. -/
theorem permission_write_unchecked (a a2 : String) (fileId : Nat)
    (target role : String) (st : DriveState)
    (ht : target ≠ "") (hr : validRole role = true) :
    postPermission a fileId (some target) (some role) st
      = (.ok ⟨fileId, target, role⟩,
         { st with permissions := st.permissions ++ [⟨fileId, target, role⟩] }) ∧
    putPermission a fileId (some target) (some role) st
      = putPermission a2 fileId (some target) (some role) st := by
  have hre : role ≠ "" := by
    intro he
    rw [he] at hr
    exact absurd hr (by decide)
  have hin : permissionInputOk (some target) (some role)
      = some (target, role) := by
    unfold permissionInputOk
    simp only [truthy, if_neg ht, if_neg hre]
    rw [if_pos hr]
  constructor
  · unfold postPermission
    rw [hin]
  · rfl

/-- Witness for C2's amended theorem: `eve` grants `bob` the `viewer`
role on node 1 with no relationship to the node, and the update route
treats `eve` and `alice` alike. -/
theorem permission_write_unchecked_witness :
    ("bob" : String) ≠ "" ∧ validRole "viewer" = true ∧
    (postPermission "eve" 1 (some "bob") (some "viewer") ⟨[aliceFile], [], [], []⟩
      = (.ok ⟨1, "bob", "viewer"⟩,
         ⟨[aliceFile], [⟨1, "bob", "viewer"⟩], [], []⟩) ∧
     putPermission "eve" 1 (some "bob") (some "viewer") ⟨[aliceFile], [], [], []⟩
      = putPermission "alice" 1 (some "bob") (some "viewer")
          ⟨[aliceFile], [], [], []⟩) :=
  ⟨by decide, by decide,
   permission_write_unchecked "eve" "alice" 1 "bob" "viewer"
     ⟨[aliceFile], [], [], []⟩ (by decide) (by decide)⟩

/-- C3 counterexample: `bob` holds a `viewer` grant on node 1 (so he has
viewer-or-above privilege) and the backing object exists, yet his share
request fails with 404; the owner `alice` succeeds on the same state. -/
theorem viewer_grant_holder_share_denied :
    shareHandler "bob" 1
      ⟨[aliceFile], [⟨1, "bob", "viewer"⟩], ["alice/5_a.txt"], []⟩
      = .err 404 ∧
    shareHandler "alice" 1
      ⟨[aliceFile], [⟨1, "bob", "viewer"⟩], ["alice/5_a.txt"], []⟩
      = .ok "signed:alice/5_a.txt" := by
  decide

/-- C3 amended: a share link can be generated only by the node's owner:
the node lookup filters on `user_id = actor`, so whenever the actor owns
no node with the given id the request fails with 404 — grants are never
consulted (the outcome is identical for every `permissions` table). -/
theorem share_requires_ownership (actorId : String) (fileId : Nat)
    (st : DriveState)
    (h : ∀ n ∈ st.files_folders, ¬(n.id = fileId ∧ n.user_id = actorId)) :
    shareHandler actorId fileId st = .err 404 ∧
    ∀ ps, shareHandler actorId fileId { st with permissions := ps }
      = shareHandler actorId fileId st := by
  refine ⟨?_, fun ps => rfl⟩
  unfold shareHandler
  have hfind : st.files_folders.find?
      (fun n => n.id == fileId && n.user_id == actorId) = none := by
    rw [List.find?_eq_none]
    intro n hn
    have := h n hn
    simp only [Bool.and_eq_true, beq_iff_eq]
    intro hc
    exact this ⟨hc.1, hc.2⟩
  rw [hfind]

/-- Witness for C3's amended theorem: `bob` owns no node with id 1 in a
state where `alice` owns node 1, and his share request fails with 404. -/
theorem share_requires_ownership_witness :
    (∀ n ∈ ([aliceFile] : List Node), ¬(n.id = 1 ∧ n.user_id = "bob")) ∧
    (shareHandler "bob" 1 ⟨[aliceFile], [⟨1, "bob", "editor"⟩],
        ["alice/5_a.txt"], []⟩ = .err 404 ∧
     ∀ ps, shareHandler "bob" 1 ⟨[aliceFile], ps, ["alice/5_a.txt"], []⟩
       = shareHandler "bob" 1 ⟨[aliceFile], [⟨1, "bob", "editor"⟩],
           ["alice/5_a.txt"], []⟩) :=
  ⟨by decide, share_requires_ownership "bob" 1
    ⟨[aliceFile], [⟨1, "bob", "editor"⟩], ["alice/5_a.txt"], []⟩ (by decide)⟩

/-- Helper: the delete/restore row filter is non-empty exactly when the
actor owns some node with the given id, in any deletion state. -/
theorem filter_owner_ne_nil_iff (fileId : Nat) (userId : String)
    (db : List Node) :
    (db.filter (fun n => n.id == fileId && n.user_id == userId) ≠ [])
      ↔ ∃ n ∈ db, n.id = fileId ∧ n.user_id = userId := by
  constructor
  · intro hne
    cases hm : db.filter (fun n => n.id == fileId && n.user_id == userId) with
    | nil => exact absurd hm hne
    | cons n l =>
      have hmem : n ∈ db.filter
          (fun n => n.id == fileId && n.user_id == userId) := by
        rw [hm]
        exact List.mem_cons_self n l
      rw [List.mem_filter] at hmem
      refine ⟨n, hmem.1, ?_⟩
      have h2 := hmem.2
      simp only [Bool.and_eq_true, beq_iff_eq] at h2
      exact h2
  · rintro ⟨n, hn, h1, h2⟩ hnil
    have hmem : n ∈ db.filter
        (fun n => n.id == fileId && n.user_id == userId) := by
      rw [List.mem_filter]
      exact ⟨hn, by simp [h1, h2]⟩
    rw [hnil] at hmem
    exact absurd hmem (List.not_mem_nil n)

/-- Helper: after the conditional update, every row of the actor with the
given id carries the written flag. -/
theorem map_update_flag (fileId : Nat) (userId : String) (db : List Node)
    (b : Bool) :
    ∀ n ∈ db.map (fun n =>
      if n.id == fileId && n.user_id == userId
      then { n with is_deleted := b } else n),
      n.id = fileId → n.user_id = userId → n.is_deleted = b := by
  intro n hn h1 h2
  rw [List.mem_map] at hn
  obtain ⟨m, hm, hfm⟩ := hn
  by_cases hp : (m.id == fileId && m.user_id == userId) = true
  · rw [if_pos hp] at hfm
    rw [← hfm]
  · rw [if_neg hp] at hfm
    subst hfm
    exact absurd (by simp [h1, h2]) hp

/-- Helper: the rows written by a soft-delete. -/
theorem deleteHandler_rows (userId : String) (fileId : Nat)
    (st : DriveState) :
    (deleteHandler userId fileId st).2.files_folders
      = st.files_folders.map (fun n =>
          if n.id == fileId && n.user_id == userId
          then { n with is_deleted := true } else n) := by
  unfold deleteHandler
  cases hm : st.files_folders.filter
      (fun n => n.id == fileId && n.user_id == userId) with
  | nil => rfl
  | cons n l => rfl

/-- Helper: the rows written by a restore. -/
theorem restoreHandler_rows (userId : String) (fileId : Nat)
    (st : DriveState) :
    (restoreHandler userId fileId st).2.files_folders
      = st.files_folders.map (fun n =>
          if n.id == fileId && n.user_id == userId
          then { n with is_deleted := false } else n) := by
  unfold restoreHandler
  cases hm : st.files_folders.filter
      (fun n => n.id == fileId && n.user_id == userId) with
  | nil => rfl
  | cons n l => rfl

/-- C4 counterexample: soft-deleting an already-trashed node succeeds
(200) although no live node with that id exists, and restoring a live
node succeeds (200) although the node is not in the trash — both should
be `NotFound` under the claim. -/
theorem delete_trashed_and_restore_live_succeed :
    trashedNodeU.is_deleted = true ∧
    (deleteHandler "u" 2 ⟨[trashedNodeU], [], [], []⟩).1.status = 200 ∧
    liveNodeU.is_deleted = false ∧
    (restoreHandler "u" 1 ⟨[liveNodeU], [], [], []⟩).1.status = 200 := by
  decide

/-- C4 amended: soft-delete and restore ignore the prior deletion state:
each succeeds exactly when the actor owns some node with the given id —
live or trashed — and fails with 404 only when no such node exists; on
the updated rows every node of the actor with that id carries the
written flag (`is_deleted = true` after delete, `false` after
restore). -/
theorem delete_restore_ignore_prior_state (userId : String) (fileId : Nat)
    (st : DriveState) :
    ((deleteHandler userId fileId st).1.status = 200 ↔
      ∃ n ∈ st.files_folders, n.id = fileId ∧ n.user_id = userId) ∧
    ((restoreHandler userId fileId st).1.status = 200 ↔
      ∃ n ∈ st.files_folders, n.id = fileId ∧ n.user_id = userId) ∧
    (∀ n ∈ (deleteHandler userId fileId st).2.files_folders,
      n.id = fileId → n.user_id = userId → n.is_deleted = true) ∧
    (∀ n ∈ (restoreHandler userId fileId st).2.files_folders,
      n.id = fileId → n.user_id = userId → n.is_deleted = false) := by
  refine ⟨?_, ?_, ?_, ?_⟩
  · rw [← filter_owner_ne_nil_iff fileId userId st.files_folders]
    unfold deleteHandler
    cases hm : st.files_folders.filter
        (fun n => n.id == fileId && n.user_id == userId) with
    | nil => simp [HResult.status]
    | cons n l => simp [HResult.status]
  · rw [← filter_owner_ne_nil_iff fileId userId st.files_folders]
    unfold restoreHandler
    cases hm : st.files_folders.filter
        (fun n => n.id == fileId && n.user_id == userId) with
    | nil => simp [HResult.status]
    | cons n l => simp [HResult.status]
  · rw [deleteHandler_rows]
    exact map_update_flag fileId userId st.files_folders true
  · rw [restoreHandler_rows]
    exact map_update_flag fileId userId st.files_folders false

/-- C5 counterexample: with a live node already at `u/5_a.txt` (its
backing object moved away, as a rename leaves the metadata behind), an
upload resulting in the same path succeeds — yielding two live nodes at
one path instead of `Conflict`; and re-creating a path whose trashed
node's backing object still exists fails with 500 instead of
succeeding. -/
theorem duplicate_live_path_upload_behaviour :
    liveNodeU.path = "u/5_a.txt" ∧ liveNodeU.is_deleted = false ∧
    (uploadHandler "u" (some ⟨"a.txt", "text/plain"⟩) none 5
        ⟨[liveNodeU], [], [], []⟩).1.status = 200 ∧
    ((uploadHandler "u" (some ⟨"a.txt", "text/plain"⟩) none 5
        ⟨[liveNodeU], [], [], []⟩).2.files_folders.filter
      (fun n => n.path == "u/5_a.txt" && n.is_deleted == false)).length = 2 ∧
    trashedAtUploadPath.is_deleted = true ∧
    (uploadHandler "u" (some ⟨"a.txt", "text/plain"⟩) none 5
        ⟨[trashedAtUploadPath], [], ["u/5_a.txt"], []⟩).1.status = 500 := by
  decide

/-- C5 amended: the upload handler performs no path-uniqueness check
against the metadata and never answers `Conflict` (409): whenever the
resulting storage key is free, the insert goes through and appends the
new row even if a live node with the same path already exists; failures
surface as 400 (no file) or 500 (storage), never 409. -/
theorem upload_never_conflict (userId : String) (file : Option UploadFile)
    (parentFolderPath : Option String) (now : Nat) (st : DriveState) :
    (uploadHandler userId file parentFolderPath now st).1.status ≠ 409 ∧
    (∀ f, file = some f →
      uploadPath userId f parentFolderPath now ∉ st.storage →
      (uploadHandler userId file parentFolderPath now st).1.status = 200 ∧
      (uploadHandler userId file parentFolderPath now st).2.files_folders
        = st.files_folders
          ++ [uploadNode userId f parentFolderPath now st.files_folders]) := by
  constructor
  · unfold uploadHandler
    cases file with
    | none => simp [HResult.status]
    | some f =>
      dsimp only
      by_cases hmem : uploadPath userId f parentFolderPath now ∈ st.storage
      · rw [if_pos hmem]
        simp [HResult.status]
      · rw [if_neg hmem]
        simp [HResult.status]
  · intro f hf hmem
    subst hf
    unfold uploadHandler
    dsimp only
    rw [if_neg hmem]
    exact ⟨rfl, rfl⟩

/-- Witness for C5's amended theorem: uploading `a.txt` at `now = 5`
over a state whose metadata already holds a live node at the resulting
path (backing key free) returns 200 and appends the duplicate row. -/
theorem upload_never_conflict_witness :
    uploadPath "u" ⟨"a.txt", "text/plain"⟩ none 5
        ∉ (⟨[liveNodeU], [], [], []⟩ : DriveState).storage ∧
    (uploadHandler "u" (some ⟨"a.txt", "text/plain"⟩) none 5
        ⟨[liveNodeU], [], [], []⟩).1.status ≠ 409 ∧
    (uploadHandler "u" (some ⟨"a.txt", "text/plain"⟩) none 5
        ⟨[liveNodeU], [], [], []⟩).1.status = 200 ∧
    (uploadHandler "u" (some ⟨"a.txt", "text/plain"⟩) none 5
        ⟨[liveNodeU], [], [], []⟩).2.files_folders
      = [liveNodeU] ++ [uploadNode "u" ⟨"a.txt", "text/plain"⟩ none 5 [liveNodeU]] :=
  ⟨by decide,
   (upload_never_conflict "u" (some ⟨"a.txt", "text/plain"⟩) none 5
     ⟨[liveNodeU], [], [], []⟩).1,
   (upload_never_conflict "u" (some ⟨"a.txt", "text/plain"⟩) none 5
     ⟨[liveNodeU], [], [], []⟩).2 ⟨"a.txt", "text/plain"⟩ rfl (by decide)⟩

/-- C6 counterexample: a live node occupies the destination path
`u/b.txt` in the metadata, yet renaming `a.txt` to `b.txt` succeeds with
200 — the handler checks only the object store, never the metadata, and
no `Conflict` is raised. -/
theorem rename_onto_occupied_path_succeeds :
    nodeAtDest.path = "u/b.txt" ∧ nodeAtDest.is_deleted = false ∧
    (renameHandler "u" "a.txt" (some "b.txt")
        ⟨[nodeAtDest], [], ["u/a.txt"], []⟩).1.status = 200 := by
  decide

/-- C6 amended: rename fails with 400 (`InvalidInput`) exactly when the
new name is missing or empty — that much of the claim holds — but it
never fails with `Conflict`: for a non-empty new name the outcome is
decided solely by the object-store move (200 when the source object
exists and the destination key is free, 500 otherwise), regardless of
any live metadata node occupying the destination path. -/
theorem rename_validation_no_conflict (userId oldName : String)
    (newFileName : Option String) (st : DriveState) :
    (truthy newFileName = none →
      renameHandler userId oldName newFileName st = (.err 400, st)) ∧
    (renameHandler userId oldName newFileName st).1.status ≠ 409 ∧
    (∀ n, truthy newFileName = some n →
      (renameHandler userId oldName newFileName st).1.status =
        (if st.storage.contains (userId ++ "/" ++ oldName)
            && !(st.storage.contains (userId ++ "/" ++ n))
         then 200 else 500)) := by
  refine ⟨?_, ?_, ?_⟩
  · intro h
    unfold renameHandler
    rw [h]
  · unfold renameHandler
    cases truthy newFileName with
    | none => simp [HResult.status]
    | some n =>
      dsimp only
      unfold moveObject
      by_cases hc : (st.storage.contains (userId ++ "/" ++ oldName)
          && !(st.storage.contains (userId ++ "/" ++ n))) = true
      · rw [if_pos hc]
        simp [HResult.status]
      · rw [if_neg hc]
        simp [HResult.status]
  · intro n hn
    unfold renameHandler
    rw [hn]
    dsimp only
    unfold moveObject
    by_cases hc : (st.storage.contains (userId ++ "/" ++ oldName)
        && !(st.storage.contains (userId ++ "/" ++ n))) = true
    · rw [if_pos hc, if_pos hc]
      rfl
    · rw [if_neg hc, if_neg hc]
      rfl

/-- Witness for C6's amended theorem: an empty new name is rejected with
400, and a rename with free destination key reports the move result even
though a live node occupies the destination path. -/
theorem rename_validation_no_conflict_witness :
    truthy (some "") = none ∧
    renameHandler "u" "x.txt" (some "") (⟨[], [], [], []⟩ : DriveState)
      = (.err 400, (⟨[], [], [], []⟩ : DriveState)) ∧
    truthy (some "b.txt") = some "b.txt" ∧
    (renameHandler "u" "a.txt" (some "b.txt")
        ⟨[nodeAtDest], [], ["u/a.txt"], []⟩).1.status =
      (if (⟨[nodeAtDest], [], ["u/a.txt"], []⟩ : DriveState).storage.contains
            ("u" ++ "/" ++ "a.txt")
          && !((⟨[nodeAtDest], [], ["u/a.txt"], []⟩ : DriveState).storage.contains
            ("u" ++ "/" ++ "b.txt"))
       then 200 else 500) :=
  ⟨by decide,
   (rename_validation_no_conflict "u" "x.txt" (some "")
     (⟨[], [], [], []⟩ : DriveState)).1 (by decide),
   by decide,
   (rename_validation_no_conflict "u" "a.txt" (some "b.txt")
     ⟨[nodeAtDest], [], ["u/a.txt"], []⟩).2.2 "b.txt" (by decide)⟩

/-- C8: a grant-creation or grant-update request whose role is not one of
`owner`, `editor`, `viewer`, or which lacks a target principal, is
rejected with 400 and leaves the state — in particular the
`permissions` rows — untouched. -/
theorem invalid_permission_input_rejected (actorId : String) (fileId : Nat)
    (targetUserId role : Option String) (st : DriveState)
    (h : (∀ r, role = some r → validRole r = false)
         ∨ truthy targetUserId = none) :
    postPermission actorId fileId targetUserId role st = (.err 400, st) ∧
    putPermission actorId fileId targetUserId role st = (.err 400, st) := by
  have hnone : permissionInputOk targetUserId role = none := by
    unfold permissionInputOk
    rcases h with h | h
    · cases htu : truthy targetUserId with
      | none => cases htr : truthy role <;> rfl
      | some t =>
        cases htr : truthy role with
        | none => rfl
        | some r =>
          have hr : validRole r = false := h r (truthy_eq_some htr)
          simp [hr]
    · rw [h]
  unfold postPermission putPermission
  rw [hnone]
  exact ⟨rfl, rfl⟩

/-- Witness for C8: granting role `admin` is rejected by both routes and
the state is unchanged. -/
theorem invalid_permission_input_rejected_witness :
    (∀ r, (some "admin" : Option String) = some r → validRole r = false) ∧
    (postPermission "alice" 1 (some "bob") (some "admin")
        (⟨[], [], [], []⟩ : DriveState)
       = (.err 400, (⟨[], [], [], []⟩ : DriveState)) ∧
     putPermission "alice" 1 (some "bob") (some "admin")
        (⟨[], [], [], []⟩ : DriveState)
       = (.err 400, (⟨[], [], [], []⟩ : DriveState))) :=
  have h : ∀ r, (some "admin" : Option String) = some r → validRole r = false :=
    fun r hr => by
      injection hr with h2
      rw [← h2]
      decide
  ⟨h, invalid_permission_input_rejected "alice" 1 (some "bob") (some "admin")
    (⟨[], [], [], []⟩ : DriveState) (Or.inl h)⟩

/-- Witness for C4's amended theorem: after `u` soft-deletes node 2, the
node with that id owned by `u` carries `is_deleted = true`. -/
theorem delete_restore_ignore_prior_state_witness :
    trashedNodeU ∈ (deleteHandler "u" 2
        ⟨[trashedNodeU], [], [], []⟩).2.files_folders ∧
    trashedNodeU.id = 2 ∧ trashedNodeU.user_id = "u" ∧
    trashedNodeU.is_deleted = true :=
  ⟨by decide, by decide, by decide,
   (delete_restore_ignore_prior_state "u" 2
       ⟨[trashedNodeU], [], [], []⟩).2.2.1
     trashedNodeU (by decide) (by decide) (by decide)⟩
